import Mathlib

/-!
# Verification of the Workzone export analyzer

A shallow embedding of `src/workzone_analyzer.py` (the SAP Workzone export
analysis tool).  Python strings are modelled through explicit `List Char`
operations so that every definition evaluates by kernel reduction; JSON
field accesses of the form `d.get(k)` become `Option`-valued record fields,
and Python truthiness tests on optional strings are modelled by `truthy`.

Sections:
1. character-list primitives mirroring the Python string methods used;
2. `extract_app_name_from_viz` (lines 68-106 of the source);
3. the input record collections and `load_workzone_data` (lines 27-65);
4. `analyze_workzone_export` (lines 109-281), restricted to the output
   fields `spaces`, `pages` and `roles` — the `business_apps` section of
   the source (lines 144-173 and 220-227) only fills the separate
   `app_details` table, which none of the spaces/pages/roles output reads;
5. theorems about the claims of the specification.
-/

/-! ## Character-list primitives -/

/-- Characters of `l` strictly before the first `'#'`; this is Python's
`l.split("#")[0]`. -/
def beforeDelim (l : List Char) : List Char :=
  l.takeWhile (fun c => !(c == '#'))

/-- Characters of `l` strictly after the first `'_'`; when `'_'` occurs in
`l` this is Python's `l.split('_', 1)[1]`. -/
def afterFirstUnderscore (l : List Char) : List Char :=
  (l.dropWhile (fun c => !(c == '_'))).drop 1

/-- Split `l` at every occurrence of `c`, keeping empty segments; this is
Python's `l.split(c)` (so `splitChar c [] = [[]]`, like `"".split(c)`). -/
def splitChar (c : Char) : List Char → List (List Char)
  | [] => [[]]
  | x :: xs =>
    let r := splitChar c xs
    if x = c then [] :: r
    else
      match r with
      | [] => [[x]]
      | y :: ys => (x :: y) :: ys

/-- Substring containment: Python's `pat in s` on strings, over the
character lists of `s`. -/
def listContainsSub (pat : List Char) : List Char → Bool
  | [] => pat.isEmpty
  | c :: t => pat.isPrefixOf (c :: t) || listContainsSub pat t

/-- Python's `pat in s` for strings. -/
def strContains (s pat : String) : Bool :=
  listContainsSub pat.toList s.toList

/-- Python truthiness of an optional string: `None` and `""` are falsy. -/
def truthy : Option String → Bool
  | none => false
  | some s => !(s == "")

/-! ## Identifier Resolver: `extract_app_name_from_viz` (source lines 68-106) -/

/-- The stoplist of generic namespace tokens of source line 102:
`['app', 'viz', 'be', 'nmbs', 'scm', 'btc']`. -/
def stoplist : List (List Char) :=
  ["app".toList, "viz".toList, "be".toList, "nmbs".toList, "scm".toList, "btc".toList]

/-- The substring of a visualization id before the first `'#'`
(its "app identity" portion, `viz_id.split("#")[0]` in the source). -/
def app_identity (viz_id : String) : String :=
  ⟨beforeDelim viz_id.toList⟩

/-- Source lines 68-106.  Rules in order: GUID passthrough (≥ 4 dashes),
`gbx_` passthrough, strip up to the first underscore, dot rule (first
`z`-segment of length > 3, else last non-stoplisted segment), fallback. -/
def extract_app_name_from_viz (viz_id : String) : String :=
  let app_part := beforeDelim viz_id.toList
  if 4 ≤ app_part.count '-' then ⟨app_part⟩
  else if "gbx_".toList.isPrefixOf app_part then ⟨app_part⟩
  else if app_part.contains '_' then ⟨afterFirstUnderscore app_part⟩
  else if app_part.contains '.' then
    let parts := splitChar '.' app_part
    match parts.find? (fun p => "z".toList.isPrefixOf p && decide (3 < p.length)) with
    | some p => ⟨p⟩
    | none =>
      match (parts.filter (fun p => !(stoplist.contains p))).getLast? with
      | some q => ⟨q⟩
      | none => ⟨app_part⟩
  else ⟨app_part⟩

/-! ## Input record collections

Each record keeps exactly the JSON fields the source reads; nested access
paths (`mergedEntity.title`, `cdm.identification.id`, ...) are flattened to
one field per path, with `Option` for `d.get(k)` access. -/

/-- One record of `1_DataFile_SP.json`: `id`, `language`,
`mergedEntity.title`, `mergedEntity.sortNumber`, `mergedEntity.description`. -/
structure SpaceRecord where
  id : Option String
  language : Option String
  title : Option String
  sortNumber : Option Int
  description : Option String
deriving DecidableEq

/-- One record of `1_DataFile_WPV.json`: `id`, `language`,
`mergedEntity.descriptor.value.title`, `mergedEntity.descriptor.value.description`,
and `workPageVizsId` (defaulting to `[]` in the source). -/
structure WorkPage where
  id : Option String
  language : Option String
  title : Option String
  description : Option String
  workPageVizsId : List String
deriving DecidableEq

/-- One record of `1_DataFile_SP-WP.json`: `spaceId` and `workPageId`. -/
structure SPRelation where
  spaceId : Option String
  workPageId : Option String
deriving DecidableEq

/-- An entry of a `cdm.relations.base` list, keeping its `target.id`. -/
structure BaseRel where
  targetId : Option String
deriving DecidableEq

/-- One record of `role1.json`: `cdm.identification.id`,
`cdm.identification.providerId`, `cdm.relations.base`, and the
`metadata.createdBy` / `metadata.updatedBy` fields. -/
structure RoleRecord where
  id : Option String
  providerId : Option String
  base : List BaseRel
  createdBy : Option String
  updatedBy : Option String
deriving DecidableEq

/-- One record of `businessapp1.json` (the fields read on source
lines 148-173). -/
structure BusinessApp where
  id : Option String
  title : Option String
  providerId : Option String
  base : List BaseRel
  createdBy : Option String
  updatedBy : Option String
deriving DecidableEq

/-- The `export_data` metadata object (source lines 122-130). -/
structure ExportMetadata where
  time : Option String
  username : Option String
  productName : Option String
  transportServiceVersion : Option String
  providerIds : List String
deriving DecidableEq

/-- The `data` dictionary built by `load_workzone_data`: a key is present
(`some`) exactly when the corresponding file existed and parsed. -/
structure WorkzoneData where
  export_metadata : Option ExportMetadata
  roles : Option (List RoleRecord)
  business_apps : Option (List BusinessApp)
  spaces : Option (List SpaceRecord)
  workpages : Option (List WorkPage)
  space_workpage_relations : Option (List SPRelation)
deriving DecidableEq

/-! ## `load_workzone_data` (source lines 27-65)

A file on disk is either absent, present but not valid JSON, or present
with a parsed payload.  The source guards each file with
`os.path.exists` and then calls `json.load` with no exception handler, so
an invalid file raises and aborts the load. -/

/-- State of one input file: absent, present with invalid JSON, or
present with a parsed value. -/
inductive FileContent (α : Type) where
  | absent
  | invalid
  | valid (val : α)
deriving DecidableEq

/-- `if os.path.exists(p): json.load(open(p))` — absent files contribute no
key, invalid JSON raises (modelled as `Except.error`). -/
def FileContent.loadStep {α : Type} : FileContent α → Except Unit (Option α)
  | .absent => .ok none
  | .invalid => .error ()
  | .valid v => .ok (some v)

/-- `true` exactly when the file is present but not valid JSON. -/
def FileContent.bad {α : Type} : FileContent α → Bool
  | .invalid => true
  | _ => false

/-- The payload a successful load stores for this file (`none` when the
file is absent). -/
def FileContent.toOption {α : Type} : FileContent α → Option α
  | .valid v => some v
  | _ => none

/-- The six input files `load_workzone_data` looks for, in the order the
source opens them. -/
structure InputFiles where
  export_data : FileContent ExportMetadata
  role1 : FileContent (List RoleRecord)
  businessapp1 : FileContent (List BusinessApp)
  dataFileSP : FileContent (List SpaceRecord)
  dataFileWPV : FileContent (List WorkPage)
  dataFileSPWP : FileContent (List SPRelation)
deriving DecidableEq

/-- Some input file is present but holds invalid JSON. -/
def InputFiles.anyBad (files : InputFiles) : Bool :=
  files.export_data.bad || files.role1.bad || files.businessapp1.bad ||
    files.dataFileSP.bad || files.dataFileWPV.bad || files.dataFileSPWP.bad

/-- Source lines 27-65: build the `data` dictionary, file by file, in
source order; the first invalid JSON file aborts the whole load. -/
def load_workzone_data (files : InputFiles) : Except Unit WorkzoneData := do
  let em ← files.export_data.loadStep
  let roles ← files.role1.loadStep
  let apps ← files.businessapp1.loadStep
  let spaces ← files.dataFileSP.loadStep
  let wps ← files.dataFileWPV.loadStep
  let rels ← files.dataFileSPWP.loadStep
  return { export_metadata := em, roles := roles, business_apps := apps,
           spaces := spaces, workpages := wps, space_workpage_relations := rels }

/-! ## `analyze_workzone_export` (source lines 109-281) -/

/-- An entry of `overview["spaces"]` (source lines 136-141). -/
structure SpaceEntry where
  id : Option String
  title : Option String
  sort_number : Option Int
  description : Option String
deriving DecidableEq

/-- An entry of a page's `apps` list (source lines 215-218). -/
structure AppOccurrence where
  viz_id : String
  app_name : String
deriving DecidableEq

/-- An entry of `overview["pages"]` (source lines 202-208). -/
structure PageEntry where
  id : Option String
  title : Option String
  description : Option String
  spaces : List String
  apps : List AppOccurrence
deriving DecidableEq

/-- An entry of a role's `related_visualizations` list (source
lines 255-259). -/
structure RoleViz where
  page : Option String
  viz_id : String
  app_name : String
deriving DecidableEq

/-- An entry of `overview["roles"]` (source lines 261-270). -/
structure RoleEntry where
  id : Option String
  provider_id : Option String
  extendsId : Option String
  created_by : Option String
  updated_by : Option String
  related_pages : List (Option String)
  related_visualizations : List RoleViz
  note : String
deriving DecidableEq

/-- The claimed output fields of `overview` (`export_info`, `apps` and
`statistics` are not modelled: no claim refers to them and the
`spaces`/`pages`/`roles` computations do not read them). -/
structure Overview where
  spaces : List SpaceEntry
  pages : List PageEntry
  roles : List RoleEntry
deriving DecidableEq

/-- Source lines 136-141: the output entry of one master-language space. -/
def mkSpaceEntry (s : SpaceRecord) : SpaceEntry :=
  { id := s.id, title := s.title, sort_number := s.sortNumber, description := s.description }

/-- Source lines 133-141: keep only records with `language == 'master'`. -/
def spacesPass (data : WorkzoneData) : List SpaceEntry :=
  ((data.spaces.getD []).filter (fun s => s.language == some "master")).map mkSpaceEntry

/-- Source lines 184-189: scan the space records for the first one whose
`id` equals the relation's `spaceId` and whose `language` is `'master'`,
returning its `mergedEntity.title`. -/
def findSpaceTitle (spaces : List SpaceRecord) (spaceId : Option String) : Option String :=
  (spaces.find? (fun s => s.id == spaceId && s.language == some "master")).bind SpaceRecord.title

/-- Source lines 183-192: the title a relation contributes to
`page_to_space_map`, or `none` when the lookup fails or the title is falsy
(`if space_title:`). -/
def relationSpaceTitle (spaces : List SpaceRecord) (rel : SPRelation) : Option String :=
  (findSpaceTitle spaces rel.spaceId).bind (fun t => if t == "" then none else some t)

/-- Source lines 176-192 plus the lookup on line 206:
`page_to_space_map.get(page_id, [])`, i.e. the titles contributed, in
relation-file order, by the relations whose `workPageId` equals `pageId`. -/
def pageToSpaces (data : WorkzoneData) (pageId : Option String) : List String :=
  (data.space_workpage_relations.getD []).filterMap (fun rel =>
    if rel.workPageId == pageId then relationSpaceTitle (data.spaces.getD []) rel else none)

/-- Source lines 198-218: the output entry of one `'en'`-language workpage
(one `apps` entry per element of `workPageVizsId`, in order). -/
def mkPageEntry (data : WorkzoneData) (wp : WorkPage) : PageEntry :=
  { id := wp.id, title := wp.title, description := wp.description,
    spaces := pageToSpaces data wp.id,
    apps := wp.workPageVizsId.map
      (fun v => { viz_id := v, app_name := extract_app_name_from_viz v }) }

/-- Source lines 195-229: keep only records with `language == 'en'`. -/
def pagesPass (data : WorkzoneData) : List PageEntry :=
  ((data.workpages.getD []).filter (fun wp => wp.language == some "en")).map (mkPageEntry data)

/-- Source line 252: `viz_id.startswith(provider_id + "_") or provider_id in viz_id`. -/
def providerMatch (provider : String) (vizId : String) : Bool :=
  (provider ++ "_").toList.isPrefixOf vizId.toList || strContains vizId provider

/-- Source lines 249-259: one iteration of the inner visualization loop,
threading the pair (`related_pages`, `related_visualizations`). -/
def roleScanStep (provider : String) (pageTitle : Option String)
    (acc : List (Option String) × List RoleViz) (occ : AppOccurrence) :
    List (Option String) × List RoleViz :=
  if providerMatch provider occ.viz_id then
    ((if acc.1.contains pageTitle then acc.1 else acc.1 ++ [pageTitle]),
      acc.2 ++ [{ page := pageTitle, viz_id := occ.viz_id, app_name := occ.app_name }])
  else acc

/-- Source lines 247-259: the double loop over `overview["pages"]` and each
page's `apps`, producing (`related_pages`, `related_visualizations`). -/
def roleScan (pages : List PageEntry) (provider : String) :
    List (Option String) × List RoleViz :=
  pages.foldl (fun acc page => page.apps.foldl (roleScanStep provider page.title) acc) ([], [])

/-- Source lines 236-270: the output entry of one role record. -/
def mkRoleEntry (pages : List PageEntry) (role : RoleRecord) : RoleEntry :=
  let rel : List (Option String) × List RoleViz :=
    if truthy role.providerId then roleScan pages (role.providerId.getD "") else ([], [])
  { id := role.id
    provider_id := role.providerId
    extendsId := match role.base with
      | [] => none
      | b :: _ => b.targetId
    created_by := role.createdBy
    updated_by := role.updatedBy
    related_pages := rel.1
    related_visualizations := rel.2
    note := if rel.2.isEmpty then "Geen visualizations gevonden met deze provider"
      else "Gevonden via provider matching in " ++ toString rel.2.length ++ " visualizations" }

/-- Source lines 235-270: one output entry per role record, in order. -/
def rolesPass (data : WorkzoneData) (pages : List PageEntry) : List RoleEntry :=
  (data.roles.getD []).map (mkRoleEntry pages)

/-- Source lines 109-281: the claimed output fields of the overview. -/
def analyze_workzone_export (data : WorkzoneData) : Overview :=
  let pages := pagesPass data
  { spaces := spacesPass data, pages := pages, roles := rolesPass data pages }

/-- A `WorkzoneData` with every collection missing. -/
def emptyData : WorkzoneData :=
  { export_metadata := none, roles := none, business_apps := none,
    spaces := none, workpages := none, space_workpage_relations := none }

/-! ## Observable reformulations used by the claim statements -/

/-- The matched (page, visualization) occurrences of the provider pass, as
one flat list: every occurrence of every canonical page whose full
visualization id satisfies `providerMatch`, in traversal order. -/
def matchedVizs (pages : List PageEntry) (provider : String) : List RoleViz :=
  pages.flatMap (fun page => page.apps.filterMap (fun occ =>
    if providerMatch provider occ.viz_id then
      some { page := page.title, viz_id := occ.viz_id, app_name := occ.app_name }
    else none))

/-- The provider-match condition exactly as the specification states it:
the role's providerId is non-empty and the occurrence's identity string
(the substring before `'#'`) either starts with `providerId + "_"` or
contains `providerId` as a substring. -/
def providerMatchOnIdentity (providerId : Option String) (vizId : String) : Bool :=
  match providerId with
  | none => false
  | some p => !(p == "") &&
      ((p ++ "_").toList.isPrefixOf (app_identity vizId).toList
        || strContains (app_identity vizId) p)

/-- The dot rule as the specification words it: split on `'.'`, prefer the
first segment starting with the reserved marker `'z'` of length > 3, else
the last segment not in the stoplist, else the substring unchanged. -/
def dotRuleLabel (a : List Char) : String :=
  let segs := splitChar '.' a
  match segs.find? (fun p => "z".toList.isPrefixOf p && decide (3 < p.length)) with
  | some p => ⟨p⟩
  | none =>
    match (segs.filter (fun p => !(stoplist.contains p))).getLast? with
    | some q => ⟨q⟩
    | none => ⟨a⟩

/-! ## Concrete datasets used by counterexamples and witnesses -/

/-- One role with provider `"p"` and one page carrying the same matching
visualization id twice. -/
def exDupViz : WorkzoneData :=
  { emptyData with
    roles := some [{ id := some "r1", providerId := some "p", base := [],
                     createdBy := none, updatedBy := none }],
    workpages := some [{ id := some "pg1", language := some "en", title := some "Page One",
                         description := none, workPageVizsId := ["p_a#1", "p_a#1"] }] }

/-- One role with provider `"prov"` and one page whose only visualization
id contains `"prov"` after the `'#'` delimiter but not before it. -/
def exContain : WorkzoneData :=
  { emptyData with
    roles := some [{ id := some "r1", providerId := some "prov", base := [],
                     createdBy := none, updatedBy := none }],
    workpages := some [{ id := some "pg1", language := some "en", title := some "T",
                         description := none, workPageVizsId := ["app#prov"] }] }

/-- A space↔page relation referencing page id `"pg9"`, for which no page
detail record exists at all. -/
def exMissingPage : WorkzoneData :=
  { emptyData with
    spaces := some [{ id := some "s1", language := some "master", title := some "Space One",
                      sortNumber := none, description := none }],
    space_workpage_relations := some [{ spaceId := some "s1", workPageId := some "pg9" }] }

/-- One canonical page carrying two visualization ids with the same
identity string `"a"`. -/
def exDupIdentity : WorkzoneData :=
  { emptyData with
    workpages := some [{ id := some "pg1", language := some "en", title := some "T",
                         description := none, workPageVizsId := ["a#1", "a#2"] }] }

/-- Spaces and pages with both canonical and non-canonical language
variants, joined by one relation. -/
def exMixed : WorkzoneData :=
  { emptyData with
    spaces := some [
      { id := some "s1", language := some "master", title := some "Space One",
        sortNumber := none, description := none },
      { id := some "s1", language := some "fr", title := some "Espace Un",
        sortNumber := none, description := none }],
    workpages := some [
      { id := some "pg1", language := some "en", title := some "Page One",
        description := none, workPageVizsId := ["a#1"] },
      { id := some "pg1", language := some "de", title := some "Seite Eins",
        description := none, workPageVizsId := [] }],
    space_workpage_relations := some [{ spaceId := some "s1", workPageId := some "pg1" }] }

/-- One master space record without a title, plus relations pointing at it
and at a space id with no record at all. -/
def exNoTitle : WorkzoneData :=
  { emptyData with
    spaces := some [{ id := some "s2", language := some "master", title := none,
                      sortNumber := none, description := none }],
    space_workpage_relations := some [
      { spaceId := some "s2", workPageId := some "pg1" },
      { spaceId := some "s3", workPageId := some "pg1" }] }

/-- All input files absent except the space file, which holds invalid JSON. -/
def exBadFile : InputFiles :=
  { export_data := .absent, role1 := .absent, businessapp1 := .absent,
    dataFileSP := .invalid, dataFileWPV := .absent, dataFileSPWP := .absent }

/-- All input files absent except a valid role file. -/
def exGoodFile : InputFiles :=
  { export_data := .absent,
    role1 := .valid [{ id := some "r1", providerId := none, base := [],
                       createdBy := none, updatedBy := none }],
    businessapp1 := .absent, dataFileSP := .absent, dataFileWPV := .absent,
    dataFileSPWP := .absent }

/-! ## Sanity checks on the documented identifier shapes and the datasets -/

example : extract_app_name_from_viz "saas_approuter_be.nmbs.scanner#Scanner-demo"
    = "approuter_be.nmbs.scanner" := by decide

example : extract_app_name_from_viz
    "be.nmbs.scm.zscmcustomcard.app#be.nmbs.scm.zscmcustomcard.viz" = "zscmcustomcard" := by decide

example : extract_app_name_from_viz "303d0e01-17d3-4850-a8fb-032a635b3344#Default-VizId"
    = "303d0e01-17d3-4850-a8fb-032a635b3344" := by decide

example : extract_app_name_from_viz "gbx_0D6EB5511EA3B7334E8190B6BB78DF5D#008Y17F6AD9DN5414LTUOAPRX"
    = "gbx_0D6EB5511EA3B7334E8190B6BB78DF5D" := by decide

example : extract_app_name_from_viz "" = "" := by decide

example : extract_app_name_from_viz "x_" = "" := by decide

example : extract_app_name_from_viz "app#prov" = "app" := by decide

example : load_workzone_data exGoodFile = .ok
    { export_metadata := none,
      roles := some [{ id := some "r1", providerId := none, base := [],
                       createdBy := none, updatedBy := none }],
      business_apps := none, spaces := none, workpages := none,
      space_workpage_relations := none } := rfl

example : ((analyze_workzone_export exDupViz).roles.map
    (fun r => r.related_visualizations.map RoleViz.viz_id)) = [["p_a#1", "p_a#1"]] := by decide

example : ((analyze_workzone_export exContain).roles.map
    (fun r => r.related_visualizations.length)) = [1] := by decide

example : providerMatchOnIdentity (some "prov") "app#prov" = false := by decide

example : (analyze_workzone_export exMissingPage).pages = [] := by decide

example : ((analyze_workzone_export exDupIdentity).pages.map
    (fun p => p.apps.map (fun occ => app_identity occ.viz_id))) = [["a", "a"]] := by decide

example : (analyze_workzone_export exMixed).spaces =
    [{ id := some "s1", title := some "Space One", sort_number := none, description := none }] := by
  decide

example : (analyze_workzone_export exMixed).pages =
    [{ id := some "pg1", title := some "Page One", description := none,
       spaces := ["Space One"], apps := [{ viz_id := "a#1", app_name := "a" }] }] := by decide

example : load_workzone_data exBadFile = .error () := rfl

example : ("p" ++ "_").toList = ['p', '_'] := by decide

/-! ## Helper lemmas -/

/-- Python truthiness of an optional string, as a proposition. -/
theorem truthy_iff (o : Option String) : truthy o = true ↔ ∃ p, o = some p ∧ p ≠ "" := by
  cases o with
  | none => simp [truthy]
  | some s => simp [truthy]

/-- One step of the role scan appends to the visualization list exactly
when the provider condition holds. -/
theorem roleScanStep_snd (p : String) (t : Option String)
    (acc : List (Option String) × List RoleViz) (occ : AppOccurrence) :
    (roleScanStep p t acc occ).2 = acc.2 ++
      (if providerMatch p occ.viz_id then
        [{ page := t, viz_id := occ.viz_id, app_name := occ.app_name }] else []) := by
  cases h : providerMatch p occ.viz_id <;> simp [roleScanStep, h]

/-- The inner visualization loop appends, in order, one entry per matching
occurrence of the page. -/
theorem foldl_roleScanStep_snd (p : String) (t : Option String) :
    ∀ (apps : List AppOccurrence) (acc : List (Option String) × List RoleViz),
      (apps.foldl (roleScanStep p t) acc).2 = acc.2 ++ apps.filterMap (fun occ =>
        if providerMatch p occ.viz_id then
          some { page := t, viz_id := occ.viz_id, app_name := occ.app_name }
        else none)
  | [], acc => by simp
  | occ :: rest, acc => by
    rw [List.foldl_cons, foldl_roleScanStep_snd p t rest _, roleScanStep_snd,
      List.filterMap_cons]
    cases h : providerMatch p occ.viz_id <;> simp [h]

/-- The outer page loop of the role scan accumulates exactly the flat
matched-occurrence list. -/
theorem roleScan_go_snd (p : String) :
    ∀ (pages : List PageEntry) (acc : List (Option String) × List RoleViz),
      (pages.foldl (fun a page => page.apps.foldl (roleScanStep p page.title) a) acc).2 =
        acc.2 ++ matchedVizs pages p
  | [], acc => by simp [matchedVizs]
  | page :: rest, acc => by
    rw [List.foldl_cons, roleScan_go_snd p rest _, foldl_roleScanStep_snd]
    simp [matchedVizs, List.flatMap_cons]

/-- The visualization list produced by the role scan is the flat
matched-occurrence list, in traversal order and without deduplication. -/
theorem roleScan_snd (pages : List PageEntry) (p : String) :
    (roleScan pages p).2 = matchedVizs pages p := by
  simpa [roleScan] using roleScan_go_snd p pages ([], [])

/-- Unfolding of the conditional entry of `matchedVizs`. -/
theorem matchedVizs_if_eq_some (p : String) (t : Option String) (occ : AppOccurrence)
    (v : RoleViz) :
    ((if providerMatch p occ.viz_id then
        some { page := t, viz_id := occ.viz_id, app_name := occ.app_name }
      else none) = some v)
      ↔ providerMatch p occ.viz_id = true ∧
          v = { page := t, viz_id := occ.viz_id, app_name := occ.app_name } := by
  cases h : providerMatch p occ.viz_id <;> simp [h, eq_comm]

/-- Membership in the flat matched-occurrence list. -/
theorem mem_matchedVizs (pages : List PageEntry) (p : String) (v : RoleViz) :
    v ∈ matchedVizs pages p ↔ ∃ page ∈ pages, ∃ occ ∈ page.apps,
      providerMatch p occ.viz_id = true ∧
      v = { page := page.title, viz_id := occ.viz_id, app_name := occ.app_name } := by
  simp only [matchedVizs, List.mem_flatMap, List.mem_filterMap, matchedVizs_if_eq_some]

/-- Membership in the output page list: exactly the canonical-language
workpage records give rise to page entries. -/
theorem mem_pagesPass (d : WorkzoneData) (pe : PageEntry) :
    pe ∈ pagesPass d ↔
      ∃ wp ∈ d.workpages.getD [], wp.language = some "en" ∧ pe = mkPageEntry d wp := by
  simp only [pagesPass, List.mem_map, List.mem_filter, beq_iff_eq]
  constructor
  · rintro ⟨wp, ⟨hmem, hlang⟩, rfl⟩
    exact ⟨wp, hmem, hlang, rfl⟩
  · rintro ⟨wp, hmem, hlang, rfl⟩
    exact ⟨wp, ⟨hmem, hlang⟩, rfl⟩

/-- Membership in the output space list: exactly the canonical-language
space records give rise to space entries. -/
theorem mem_spacesPass (d : WorkzoneData) (e : SpaceEntry) :
    e ∈ spacesPass d ↔
      ∃ s ∈ d.spaces.getD [], s.language = some "master" ∧ e = mkSpaceEntry s := by
  simp only [spacesPass, List.mem_map, List.mem_filter, beq_iff_eq]
  constructor
  · rintro ⟨s, ⟨hmem, hlang⟩, rfl⟩
    exact ⟨s, hmem, hlang, rfl⟩
  · rintro ⟨s, hmem, hlang, rfl⟩
    exact ⟨s, ⟨hmem, hlang⟩, rfl⟩

/-- Every title in a page's owning-space list is the `mergedEntity.title`
of some master-language space record. -/
theorem pageToSpaces_title (d : WorkzoneData) (pid : Option String) (t : String)
    (h : t ∈ pageToSpaces d pid) :
    ∃ s ∈ d.spaces.getD [], s.language = some "master" ∧ s.title = some t := by
  simp only [pageToSpaces, List.mem_filterMap] at h
  obtain ⟨rel, _, hrel⟩ := h
  by_cases hk : (rel.workPageId == pid) = true
  · rw [if_pos hk] at hrel
    unfold relationSpaceTitle at hrel
    rw [Option.bind_eq_some] at hrel
    obtain ⟨t0, hfind, hif⟩ := hrel
    unfold findSpaceTitle at hfind
    rw [Option.bind_eq_some] at hfind
    obtain ⟨s, hs, hst⟩ := hfind
    have hmem := List.mem_of_find?_eq_some hs
    have hpred := List.find?_some hs
    simp only [Bool.and_eq_true, beq_iff_eq] at hpred
    refine ⟨s, hmem, hpred.2, ?_⟩
    by_cases h0 : (t0 == "") = true
    · rw [if_pos h0] at hif
      exact absurd hif (by simp)
    · rw [if_neg h0] at hif
      rw [Option.some.injEq] at hif
      rw [hst, hif]
  · rw [if_neg hk] at hrel
    exact absurd hrel (by simp)

/-- A file that parsed (or was absent) loads to its stored payload. -/
theorem loadStep_ok {α : Type} (f : FileContent α) (h : f.bad = false) :
    f.loadStep = .ok f.toOption := by
  cases f <;> simp_all [FileContent.bad, FileContent.loadStep, FileContent.toOption]

/-- A file holding invalid JSON makes its load step raise. -/
theorem loadStep_bad {α : Type} (f : FileContent α) (h : f.bad = true) :
    f.loadStep = .error () := by
  cases f <;> simp_all [FileContent.bad, FileContent.loadStep]

/-! ## Claims -/

/-- C3: the Identifier Resolver applied to
`"saas_approuter_be.nmbs.scanner#Scanner-demo"` is claimed (by the
specification and by the source's own comment on line 89) to return
`"be.nmbs.scanner"`; the code splits on the *first* underscore and keeps
the rest, returning `"approuter_be.nmbs.scanner"` instead. -/
theorem c3_underscore_rule_divergence :
    extract_app_name_from_viz "saas_approuter_be.nmbs.scanner#Scanner-demo"
        = "approuter_be.nmbs.scanner" ∧
      extract_app_name_from_viz "saas_approuter_be.nmbs.scanner#Scanner-demo"
        ≠ "be.nmbs.scanner" := by decide

/-- C5 counterexample: the resolver is claimed to always return a
non-empty string, but on the empty identifier it returns the empty
string. -/
theorem c5_counterexample :
    (extract_app_name_from_viz "").length = 0 ∧ extract_app_name_from_viz "" = "" := by
  decide

/-- C5 (amended): the Identifier Resolver is a total function on arbitrary
strings; when no rule matches (fewer than 4 dashes, no `gbx_` prefix, no
underscore, no dot in the pre-delimiter substring) it returns the
pre-delimiter substring unchanged — which may be empty. -/
theorem c5_total_fallback (s : String)
    (h1 : (beforeDelim s.toList).count '-' < 4)
    (h2 : "gbx_".toList.isPrefixOf (beforeDelim s.toList) = false)
    (h3 : (beforeDelim s.toList).contains '_' = false)
    (h4 : (beforeDelim s.toList).contains '.' = false) :
    extract_app_name_from_viz s = app_identity s := by
  have g1 : ¬ 4 ≤ (beforeDelim s.toList).count '-' := by omega
  unfold extract_app_name_from_viz app_identity
  rw [if_neg g1, if_neg (ne_true_of_eq_false h2), if_neg (ne_true_of_eq_false h3),
    if_neg (ne_true_of_eq_false h4)]

/-- C5 witness: the fallback theorem at the concrete input `"hello"`. -/
theorem c5_total_fallback_witness :
    (beforeDelim "hello".toList).count '-' < 4 ∧
      "gbx_".toList.isPrefixOf (beforeDelim "hello".toList) = false ∧
      (beforeDelim "hello".toList).contains '_' = false ∧
      (beforeDelim "hello".toList).contains '.' = false ∧
      extract_app_name_from_viz "hello" = app_identity "hello" :=
  ⟨by decide, by decide, by decide, by decide,
    c5_total_fallback "hello" (by decide) (by decide) (by decide) (by decide)⟩

/-- C9: on a pre-delimiter substring that contains a dot but no underscore
and is neither GUID-shaped nor `gbx_`-prefixed, the resolver applies the
dot rule: first `z`-segment of length > 3, else the last non-stoplisted
segment, else the substring unchanged; in particular it returns
`"zscmcustomcard"` on the documented example. -/
theorem c9_dot_rule (s : String)
    (h1 : (beforeDelim s.toList).count '-' < 4)
    (h2 : "gbx_".toList.isPrefixOf (beforeDelim s.toList) = false)
    (h3 : (beforeDelim s.toList).contains '_' = false)
    (h4 : (beforeDelim s.toList).contains '.' = true) :
    extract_app_name_from_viz s = dotRuleLabel (beforeDelim s.toList) ∧
      extract_app_name_from_viz
        "be.nmbs.scm.zscmcustomcard.app#be.nmbs.scm.zscmcustomcard.viz" = "zscmcustomcard" := by
  constructor
  · have g1 : ¬ 4 ≤ (beforeDelim s.toList).count '-' := by omega
    unfold extract_app_name_from_viz dotRuleLabel
    rw [if_neg g1, if_neg (ne_true_of_eq_false h2), if_neg (ne_true_of_eq_false h3),
      if_pos h4]
  · decide

/-- C9 witness: the dot-rule theorem at the documented example identifier. -/
theorem c9_dot_rule_witness :
    (beforeDelim "be.nmbs.scm.zscmcustomcard.app#be.nmbs.scm.zscmcustomcard.viz".toList).count '-' < 4 ∧
      "gbx_".toList.isPrefixOf
        (beforeDelim "be.nmbs.scm.zscmcustomcard.app#be.nmbs.scm.zscmcustomcard.viz".toList) = false ∧
      (beforeDelim "be.nmbs.scm.zscmcustomcard.app#be.nmbs.scm.zscmcustomcard.viz".toList).contains '_' = false ∧
      (beforeDelim "be.nmbs.scm.zscmcustomcard.app#be.nmbs.scm.zscmcustomcard.viz".toList).contains '.' = true ∧
      extract_app_name_from_viz "be.nmbs.scm.zscmcustomcard.app#be.nmbs.scm.zscmcustomcard.viz"
        = dotRuleLabel (beforeDelim "be.nmbs.scm.zscmcustomcard.app#be.nmbs.scm.zscmcustomcard.viz".toList) :=
  ⟨by decide, by decide, by decide, by decide,
    (c9_dot_rule "be.nmbs.scm.zscmcustomcard.app#be.nmbs.scm.zscmcustomcard.viz"
      (by decide) (by decide) (by decide) (by decide)).1⟩

/-- C2 counterexample: a space↔page relation references page id `"pg9"`,
no page detail record exists, and the built tree contains no page node at
all — no placeholder with the id as title is materialized. -/
theorem c2_counterexample :
    (exMissingPage.space_workpage_relations.getD []).map SPRelation.workPageId
        = [some "pg9"] ∧
      (analyze_workzone_export exMissingPage).pages = [] := by decide

/-- C2 (amended): every page node of the built tree comes from a
canonical-language page detail record; a page id referenced only by a
space↔page relation yields no node. -/
theorem c2_pages_require_detail_record (d : WorkzoneData) (pe : PageEntry)
    (h : pe ∈ (analyze_workzone_export d).pages) :
    ∃ wp ∈ d.workpages.getD [], wp.language = some "en" ∧ pe = mkPageEntry d wp := by
  exact (mem_pagesPass d pe).mp h

/-- C2 witness: the amended theorem at a concrete dataset with one
canonical page record. -/
theorem c2_pages_require_detail_record_witness :
    ({ id := some "pg1", title := some "Page One", description := none,
       spaces := ["Space One"],
       apps := [{ viz_id := "a#1", app_name := "a" }] } : PageEntry)
        ∈ (analyze_workzone_export exMixed).pages ∧
      ∃ wp ∈ exMixed.workpages.getD [], wp.language = some "en" ∧
        ({ id := some "pg1", title := some "Page One", description := none,
           spaces := ["Space One"],
           apps := [{ viz_id := "a#1", app_name := "a" }] } : PageEntry) = mkPageEntry exMixed wp :=
  ⟨by decide, c2_pages_require_detail_record exMixed _ (by decide)⟩

/-- C7: only canonical-language records reach the output: every output
space entry arises from a `'master'`-language space record, every output
page entry from an `'en'`-language page record, and every space title
joined onto a page comes from a `'master'`-language space record. -/
theorem c7_canonical_language_only (d : WorkzoneData) :
    (∀ e ∈ (analyze_workzone_export d).spaces,
      ∃ s ∈ d.spaces.getD [], s.language = some "master" ∧ e = mkSpaceEntry s) ∧
    (∀ pe ∈ (analyze_workzone_export d).pages,
      ∃ wp ∈ d.workpages.getD [], wp.language = some "en" ∧ pe = mkPageEntry d wp) ∧
    (∀ pid t, t ∈ pageToSpaces d pid →
      ∃ s ∈ d.spaces.getD [], s.language = some "master" ∧ s.title = some t) := by
  refine ⟨?_, ?_, ?_⟩
  · intro e he
    exact (mem_spacesPass d e).mp he
  · intro pe hpe
    exact (mem_pagesPass d pe).mp hpe
  · intro pid t ht
    exact pageToSpaces_title d pid t ht

/-- C7 witness: the space conjunct at a dataset holding a `master` and a
`fr` variant of the same space. -/
theorem c7_canonical_language_only_witness :
    ({ id := some "s1", title := some "Space One", sort_number := none,
       description := none } : SpaceEntry) ∈ (analyze_workzone_export exMixed).spaces ∧
      ∃ s ∈ exMixed.spaces.getD [], s.language = some "master" ∧
        ({ id := some "s1", title := some "Space One", sort_number := none,
           description := none } : SpaceEntry) = mkSpaceEntry s :=
  ⟨by decide, (c7_canonical_language_only exMixed).1 _ (by decide)⟩

/-- C8 counterexample: one page carries visualization ids `"a#1"` and
`"a#2"`, both with identity string `"a"`, and its output app list keeps
both occurrences — identities are not deduplicated within a page. -/
theorem c8_counterexample :
    ((analyze_workzone_export exDupIdentity).pages.map
      (fun p => p.apps.map (fun occ => app_identity occ.viz_id))) = [["a", "a"]] := by decide

/-- C8 (amended): a page node's app list holds one entry per visualization
occurrence of its page record, in source order, with no deduplication of
identity strings. -/
theorem c8_apps_per_occurrence (d : WorkzoneData) (pe : PageEntry)
    (h : pe ∈ (analyze_workzone_export d).pages) :
    ∃ wp ∈ d.workpages.getD [], wp.language = some "en" ∧
      pe.apps.map AppOccurrence.viz_id = wp.workPageVizsId ∧
      pe.apps.map AppOccurrence.app_name
        = wp.workPageVizsId.map extract_app_name_from_viz := by
  obtain ⟨wp, hm, hl, rfl⟩ := (mem_pagesPass d pe).mp h
  refine ⟨wp, hm, hl, ?_, ?_⟩ <;> simp [mkPageEntry, List.map_map, Function.comp_def]

/-- C8 witness: the per-occurrence theorem at a concrete dataset. -/
theorem c8_apps_per_occurrence_witness :
    ({ id := some "pg1", title := some "Page One", description := none,
       spaces := ["Space One"],
       apps := [{ viz_id := "a#1", app_name := "a" }] } : PageEntry)
        ∈ (analyze_workzone_export exMixed).pages ∧
      ∃ wp ∈ exMixed.workpages.getD [], wp.language = some "en" ∧
        ({ id := some "pg1", title := some "Page One", description := none,
           spaces := ["Space One"],
           apps := [{ viz_id := "a#1", app_name := "a" }] } : PageEntry).apps.map
            AppOccurrence.viz_id = wp.workPageVizsId ∧
        ({ id := some "pg1", title := some "Page One", description := none,
           spaces := ["Space One"],
           apps := [{ viz_id := "a#1", app_name := "a" }] } : PageEntry).apps.map
            AppOccurrence.app_name = wp.workPageVizsId.map extract_app_name_from_viz :=
  ⟨by decide, c8_apps_per_occurrence exMixed _ (by decide)⟩

/-- C10: a page's owning-space list stores master-record titles, and a
relation whose `spaceId` matches no master-language space record, or whose
first matching record has no title, contributes nothing. -/
theorem c10_space_titles_and_silent_drop (d : WorkzoneData) :
    (∀ pid t, t ∈ pageToSpaces d pid →
      ∃ s ∈ d.spaces.getD [], s.language = some "master" ∧ s.title = some t) ∧
    (∀ rel : SPRelation,
      (∀ s ∈ d.spaces.getD [], ¬(s.id = rel.spaceId ∧ s.language = some "master")) →
      relationSpaceTitle (d.spaces.getD []) rel = none) ∧
    (∀ (rel : SPRelation) (s : SpaceRecord),
      (d.spaces.getD []).find?
          (fun s0 => s0.id == rel.spaceId && s0.language == some "master") = some s →
      s.title = none → relationSpaceTitle (d.spaces.getD []) rel = none) := by
  refine ⟨fun pid t ht => pageToSpaces_title d pid t ht, ?_, ?_⟩
  · intro rel hnone
    have hfind : (d.spaces.getD []).find?
        (fun s => s.id == rel.spaceId && s.language == some "master") = none := by
      rw [List.find?_eq_none]
      intro s hs
      simp only [Bool.and_eq_true, beq_iff_eq]
      exact hnone s hs
    simp [relationSpaceTitle, findSpaceTitle, hfind]
  · intro rel s hfind htitle
    simp [relationSpaceTitle, findSpaceTitle, hfind, htitle]

/-- C10 witness: the no-title conjunct at a concrete dataset whose only
master record for space id `"s2"` has no title. -/
theorem c10_space_titles_and_silent_drop_witness :
    ((exNoTitle.spaces.getD []).find?
        (fun s0 => s0.id == (⟨some "s2", some "pg1"⟩ : SPRelation).spaceId
          && s0.language == some "master")
      = some { id := some "s2", language := some "master", title := none,
               sortNumber := none, description := none }) ∧
    relationSpaceTitle (exNoTitle.spaces.getD []) ⟨some "s2", some "pg1"⟩ = none :=
  ⟨by decide,
    (c10_space_titles_and_silent_drop exNoTitle).2.2 ⟨some "s2", some "pg1"⟩
      { id := some "s2", language := some "master", title := none,
        sortNumber := none, description := none } (by decide) rfl⟩

/-- C1 counterexample: with provider `"p"` and one page carrying the
matching visualization id `"p_a#1"` twice, the role's flat visualization
list keeps both occurrences — the same target id appears twice, not
exactly once. -/
theorem c1_counterexample :
    ((analyze_workzone_export exDupViz).roles.map
      (fun r => r.related_visualizations.map RoleViz.viz_id)) = [["p_a#1", "p_a#1"]] := by
  decide

/-- C1 (amended): a role's access list is produced by the heuristic
provider-id matching pass alone — no explicit-relation or sidecar pass
exists — and it appends every matching (page, visualization) occurrence in
traversal order without collapsing duplicate target ids; it is empty when
the role's providerId is falsy. -/
theorem c1_role_access_single_pass (d : WorkzoneData) (i : Nat) (role : RoleRecord)
    (entry : RoleEntry)
    (hrole : (d.roles.getD [])[i]? = some role)
    (hentry : (analyze_workzone_export d).roles[i]? = some entry) :
    entry.related_visualizations =
      if truthy role.providerId then
        matchedVizs (analyze_workzone_export d).pages (role.providerId.getD "")
      else [] := by
  have h1 : (analyze_workzone_export d).roles
      = (d.roles.getD []).map (mkRoleEntry (pagesPass d)) := rfl
  rw [h1, List.getElem?_map, hrole] at hentry
  obtain rfl : mkRoleEntry (pagesPass d) role = entry := by simpa using hentry
  have hp : (analyze_workzone_export d).pages = pagesPass d := rfl
  rw [hp]
  cases ht : truthy role.providerId with
  | false => simp [mkRoleEntry, ht]
  | true => simp [mkRoleEntry, ht, roleScan_snd]

/-- C1 witness: the single-pass theorem at the duplicate-visualization
dataset, index 0. -/
theorem c1_role_access_single_pass_witness :
    ((exDupViz.roles.getD [])[0]?
        = some { id := some "r1", providerId := some "p", base := [],
                 createdBy := none, updatedBy := none }) ∧
    ((analyze_workzone_export exDupViz).roles[0]?
        = some { id := some "r1", provider_id := some "p", extendsId := none,
                 created_by := none, updated_by := none,
                 related_pages := [some "Page One"],
                 related_visualizations :=
                   [{ page := some "Page One", viz_id := "p_a#1", app_name := "a" },
                    { page := some "Page One", viz_id := "p_a#1", app_name := "a" }],
                 note := "Gevonden via provider matching in 2 visualizations" }) ∧
    ({ id := some "r1", provider_id := some "p", extendsId := none,
       created_by := none, updated_by := none,
       related_pages := [some "Page One"],
       related_visualizations :=
         [{ page := some "Page One", viz_id := "p_a#1", app_name := "a" },
          { page := some "Page One", viz_id := "p_a#1", app_name := "a" }],
       note := "Gevonden via provider matching in 2 visualizations" } : RoleEntry).related_visualizations
      = if truthy (some "p") then
          matchedVizs (analyze_workzone_export exDupViz).pages ((some "p").getD "")
        else [] :=
  ⟨by decide, by decide,
    c1_role_access_single_pass exDupViz 0
      { id := some "r1", providerId := some "p", base := [],
        createdBy := none, updatedBy := none }
      { id := some "r1", provider_id := some "p", extendsId := none,
        created_by := none, updated_by := none,
        related_pages := [some "Page One"],
        related_visualizations :=
          [{ page := some "Page One", viz_id := "p_a#1", app_name := "a" },
           { page := some "Page One", viz_id := "p_a#1", app_name := "a" }],
        note := "Gevonden via provider matching in 2 visualizations" }
      (by decide) (by decide)⟩

/-- C6 counterexample: with provider `"prov"`, the visualization
`"app#prov"` is recorded as a match (the code tests the full id, which
contains `"prov"` after the delimiter), although the claimed condition on
the identity string `"app"` is false. -/
theorem c6_counterexample :
    ((analyze_workzone_export exContain).roles.map
        (fun r => r.related_visualizations.map RoleViz.viz_id)) = [["app#prov"]] ∧
      providerMatchOnIdentity (some "prov") "app#prov" = false := by decide

/-- C6 (amended): an occurrence is recorded as a provider match iff the
role's providerId is a non-empty string `p` and the occurrence's *full*
visualization id (not just its pre-delimiter identity) starts with
`p + "_"` or contains `p` as a substring. -/
theorem c6_provider_match_full_viz_id (d : WorkzoneData) (i : Nat) (role : RoleRecord)
    (entry : RoleEntry) (v : RoleViz)
    (hrole : (d.roles.getD [])[i]? = some role)
    (hentry : (analyze_workzone_export d).roles[i]? = some entry) :
    v ∈ entry.related_visualizations ↔
      ∃ p, role.providerId = some p ∧ p ≠ "" ∧
        ∃ page ∈ (analyze_workzone_export d).pages, ∃ occ ∈ page.apps,
          ((p ++ "_").toList.isPrefixOf occ.viz_id.toList = true
            ∨ strContains occ.viz_id p = true) ∧
          v = { page := page.title, viz_id := occ.viz_id, app_name := occ.app_name } := by
  have h1 : (analyze_workzone_export d).roles
      = (d.roles.getD []).map (mkRoleEntry (pagesPass d)) := rfl
  rw [h1, List.getElem?_map, hrole] at hentry
  obtain rfl : mkRoleEntry (pagesPass d) role = entry := by simpa using hentry
  cases ht : truthy role.providerId with
  | false =>
    have hrel : (mkRoleEntry (pagesPass d) role).related_visualizations = [] := by
      simp [mkRoleEntry, ht]
    rw [hrel]
    simp only [List.not_mem_nil, false_iff]
    rintro ⟨p, hps, hpne, -⟩
    have : truthy role.providerId = true := (truthy_iff role.providerId).mpr ⟨p, hps, hpne⟩
    rw [ht] at this
    exact Bool.false_ne_true this
  | true =>
    obtain ⟨p, hps, hpne⟩ := (truthy_iff role.providerId).mp ht
    have hrel : (mkRoleEntry (pagesPass d) role).related_visualizations
        = matchedVizs (pagesPass d) p := by
      have ht2 : truthy (some p) = true := by rw [← hps]; exact ht
      simp [mkRoleEntry, ht, hps, ht2, roleScan_snd]
    rw [hrel, mem_matchedVizs]
    constructor
    · rintro ⟨page, hpg, occ, hocc, hmatch, hveq⟩
      rw [providerMatch, Bool.or_eq_true] at hmatch
      exact ⟨p, hps, hpne, page, hpg, occ, hocc, hmatch, hveq⟩
    · rintro ⟨p0, hps0, -, page, hpg, occ, hocc, hdisj, hveq⟩
      rw [hps] at hps0
      obtain rfl : p0 = p := (Option.some.injEq _ _).mp hps0.symm
      refine ⟨page, hpg, occ, hocc, ?_, hveq⟩
      rw [providerMatch, Bool.or_eq_true]
      exact hdisj

/-- C6 witness: the full-id matching theorem at the containment dataset,
index 0, for the recorded occurrence. -/
theorem c6_provider_match_full_viz_id_witness :
    ((exContain.roles.getD [])[0]?
        = some { id := some "r1", providerId := some "prov", base := [],
                 createdBy := none, updatedBy := none }) ∧
    ((analyze_workzone_export exContain).roles[0]?
        = some { id := some "r1", provider_id := some "prov", extendsId := none,
                 created_by := none, updated_by := none,
                 related_pages := [some "T"],
                 related_visualizations :=
                   [{ page := some "T", viz_id := "app#prov", app_name := "app" }],
                 note := "Gevonden via provider matching in 1 visualizations" }) ∧
    (({ page := some "T", viz_id := "app#prov", app_name := "app" } : RoleViz)
        ∈ ({ id := some "r1", provider_id := some "prov", extendsId := none,
             created_by := none, updated_by := none,
             related_pages := [some "T"],
             related_visualizations :=
               [{ page := some "T", viz_id := "app#prov", app_name := "app" }],
             note := "Gevonden via provider matching in 1 visualizations" } : RoleEntry).related_visualizations
      ↔ ∃ p, ({ id := some "r1", providerId := some "prov", base := [],
                createdBy := none, updatedBy := none } : RoleRecord).providerId = some p ∧
          p ≠ "" ∧
          ∃ page ∈ (analyze_workzone_export exContain).pages, ∃ occ ∈ page.apps,
            ((p ++ "_").toList.isPrefixOf occ.viz_id.toList = true
              ∨ strContains occ.viz_id p = true) ∧
            ({ page := some "T", viz_id := "app#prov", app_name := "app" } : RoleViz)
              = { page := page.title, viz_id := occ.viz_id, app_name := occ.app_name }) :=
  ⟨by decide, by decide,
    c6_provider_match_full_viz_id exContain 0
      { id := some "r1", providerId := some "prov", base := [],
        createdBy := none, updatedBy := none }
      { id := some "r1", provider_id := some "prov", extendsId := none,
        created_by := none, updated_by := none,
        related_pages := [some "T"],
        related_visualizations :=
          [{ page := some "T", viz_id := "app#prov", app_name := "app" }],
        note := "Gevonden via provider matching in 1 visualizations" }
      { page := some "T", viz_id := "app#prov", app_name := "app" }
      (by decide) (by decide)⟩

/-- C4 counterexample: with the space file present but holding invalid
JSON, the load raises (aborting the run) instead of treating the
collection as empty. -/
theorem c4_counterexample :
    exBadFile.dataFileSP = FileContent.invalid ∧
      load_workzone_data exBadFile = .error () := ⟨rfl, rfl⟩

/-- C4 (amended): a missing input file makes its collection contribute
nothing (its key is absent from the loaded data), but a file holding
invalid JSON raises an uncaught error that aborts the whole load. -/
theorem c4_load_semantics (files : InputFiles) :
    (files.anyBad = false → load_workzone_data files = .ok
      { export_metadata := files.export_data.toOption,
        roles := files.role1.toOption,
        business_apps := files.businessapp1.toOption,
        spaces := files.dataFileSP.toOption,
        workpages := files.dataFileWPV.toOption,
        space_workpage_relations := files.dataFileSPWP.toOption }) ∧
    (files.anyBad = true → load_workzone_data files = .error ()) := by
  obtain ⟨f1, f2, f3, f4, f5, f6⟩ := files
  constructor
  · intro h
    simp only [InputFiles.anyBad, Bool.or_eq_false_iff] at h
    obtain ⟨⟨⟨⟨⟨h1, h2⟩, h3⟩, h4⟩, h5⟩, h6⟩ := h
    simp [load_workzone_data, loadStep_ok _ h1, loadStep_ok _ h2, loadStep_ok _ h3,
      loadStep_ok _ h4, loadStep_ok _ h5, loadStep_ok _ h6, Bind.bind, Except.bind,
      Pure.pure, Except.pure]
  · intro h
    cases hb1 : f1.bad with
    | true => simp [load_workzone_data, loadStep_bad _ hb1, Bind.bind, Except.bind]
    | false =>
    cases hb2 : f2.bad with
    | true =>
      simp [load_workzone_data, loadStep_ok _ hb1, loadStep_bad _ hb2, Bind.bind, Except.bind]
    | false =>
    cases hb3 : f3.bad with
    | true =>
      simp [load_workzone_data, loadStep_ok _ hb1, loadStep_ok _ hb2, loadStep_bad _ hb3,
        Bind.bind, Except.bind]
    | false =>
    cases hb4 : f4.bad with
    | true =>
      simp [load_workzone_data, loadStep_ok _ hb1, loadStep_ok _ hb2, loadStep_ok _ hb3,
        loadStep_bad _ hb4, Bind.bind, Except.bind]
    | false =>
    cases hb5 : f5.bad with
    | true =>
      simp [load_workzone_data, loadStep_ok _ hb1, loadStep_ok _ hb2, loadStep_ok _ hb3,
        loadStep_ok _ hb4, loadStep_bad _ hb5, Bind.bind, Except.bind]
    | false =>
    cases hb6 : f6.bad with
    | true =>
      simp [load_workzone_data, loadStep_ok _ hb1, loadStep_ok _ hb2, loadStep_ok _ hb3,
        loadStep_ok _ hb4, loadStep_ok _ hb5, loadStep_bad _ hb6, Bind.bind, Except.bind]
    | false =>
      rw [show InputFiles.anyBad ⟨f1, f2, f3, f4, f5, f6⟩
          = (f1.bad || f2.bad || f3.bad || f4.bad || f5.bad || f6.bad) from rfl,
        hb1, hb2, hb3, hb4, hb5, hb6] at h
      simp at h

/-- C4 witness: the load-semantics theorem at the invalid-space-file
dataset. -/
theorem c4_load_semantics_witness :
    exBadFile.anyBad = true ∧ load_workzone_data exBadFile = .error () :=
  ⟨rfl, (c4_load_semantics exBadFile).2 rfl⟩

